import Mathlib

/-!
Verification of `edx/analytics/tasks/database_exports.py`: the
`StudentModulePerCourseTask` multi-output map/reduce job that splits a raw
SQL dump of the `courseware_studentmodule` table into one tab-separated
file per course, plus a `job_success` completion marker.

Functions of the source file are embedded directly.  Collaborators that
live elsewhere in the repository (`csv_util`, `opaque_key_util`,
`url_path_join`, and the `MultiOutputMapReduceJobTask` run machinery) are
modelled from the specification; each such definition carries a doc
comment starting with `Modelled from the spec:`.
-/

namespace DatabaseExports

/-- The fixed schema of the courseware student module table
(`STUDENT_MODULE_FIELDS` in the source). -/
def STUDENT_MODULE_FIELDS : List String :=
  ["id", "module_type", "module_id", "student_id", "state", "grade",
   "created", "modified", "max_grade", "done", "course_id"]

/-- Name of the marker file appearing in the output directory to indicate
success (`MARKER_FILENAME` in the source). -/
def MARKER_FILENAME : String := "job_success"

/-- The field-size limit installed at module import (`FIELD_SIZE_LIMIT`
in the source): 4 MiB. -/
def FIELD_SIZE_LIMIT : Nat := 4 * 1024 * 1024

/-- Modelled from the spec: `url_path_join` from `edx.analytics.tasks.url`
is not under `src/`; the spec writes every output location as
`{root}/{name}`. -/
def url_path_join (root name : String) : String := root ++ "/" ++ name

/-- Modelled from the spec: the safe character set of
`opaque_key_util.get_filename_safe_course_id` — letters, digits and
limited punctuation are kept, everything else is replaced. -/
def isSafeChar (c : Char) : Bool :=
  c.isAlphanum || c = '.' || c = '_' || c = '-'

/-- Modelled from the spec: the per-character action of the sanitizer —
a safe character is kept, any other character (colons in particular) is
replaced by the configured substitute, here `-` as passed by
`output_path_for_key`. -/
def sanitizeChar (c : Char) : Char :=
  if isSafeChar c then c else '-'

/-- Modelled from the spec: `opaque_key_util.get_filename_safe_course_id`
with substitute `-`: replace every character not in the safe set with the
substitute, deterministically. -/
def get_filename_safe_course_id (course_id : String) : String :=
  String.mk (course_id.data.map sanitizeChar)

/-- Parse failure of the Record Codec: a field exceeded the configured
field-size limit. -/
inductive ParseError where
  | FieldTooLarge
deriving DecidableEq

/-- Modelled from the spec: the field splitting performed by
`csv_util.parse_line` in the `mysqldump` dialect — comma-delimited with
backslash escaping (the source dump's own export dialect). -/
def splitDump : List Char → String → List String
  | [], acc => [acc]
  | ',' :: rest, acc => acc :: splitDump rest ""
  | '\\' :: c :: rest, acc => splitDump rest (acc.push c)
  | c :: rest, acc => splitDump rest (acc.push c)

/-- Modelled from the spec: `csv_util.parse_line` with dialect `mysqldump`;
parsing fails with `FieldTooLarge` when a field exceeds the configured
field-size limit. -/
def parse_line (limit : Nat) (line : String) : Except ParseError (List String) :=
  let fields := splitDump line.data ""
  if fields.any (fun f => limit < f.length) then
    Except.error ParseError.FieldTooLarge
  else
    Except.ok fields

/-- `StudentModuleRecord`: the named tuple over `STUDENT_MODULE_FIELDS`. -/
structure StudentModuleRecord where
  id : String
  module_type : String
  module_id : String
  student_id : String
  state : String
  grade : String
  created : String
  modified : String
  max_grade : String
  done : String
  course_id : String
deriving DecidableEq

/-- The field values of a record, in schema order. -/
def recordFields (r : StudentModuleRecord) : List String :=
  [r.id, r.module_type, r.module_id, r.student_id, r.state, r.grade,
   r.created, r.modified, r.max_grade, r.done, r.course_id]

/-- `StudentModuleRecord(*values)` from the source: succeeds exactly when
`values` has the schema arity of 11, otherwise Python raises a TypeError. -/
def mkStudentModuleRecord (values : List String) : Option StudentModuleRecord :=
  match values with
  | [a, b, c, d, e, f, g, h, i, j, k] => some ⟨a, b, c, d, e, f, g, h, i, j, k⟩
  | _ => none

/-- Modelled from the spec: `csv_util.to_csv_line` with dialect `mysqlpipe` —
tab-separated with minimal quoting; per the spec's design note the
serializer does not escape its own delimiter inside field values. -/
def to_csv_line (r : StudentModuleRecord) : String :=
  String.intercalate "\t" (recordFields r)

/-- The exception kinds that can escape `StudentModulePerCourseTask.mapper`,
which contains no error handling of its own. -/
inductive MapError where
  | fieldTooLarge
  | schemaMismatch
deriving DecidableEq

/-- The `csv` module's process-wide parser configuration: a single mutable
field-size limit shared by all parsing in the process. -/
structure CsvModuleState where
  field_size_limit : Nat
deriving DecidableEq

/-- The `csv` module's initial state: Python's default field-size limit of
128 KiB (131072), before `database_exports.py` is imported. -/
def default_csv_state : CsvModuleState := ⟨131072⟩

/-- `csv.field_size_limit(n)` as called at module import in the source:
replaces the process-wide limit. -/
def csv_field_size_limit (n : Nat) (_s : CsvModuleState) : CsvModuleState := ⟨n⟩

/-- Parsing as it happens in the running process: `parse_line` consults the
process-wide field-size limit of the `csv` module state. -/
def parse_line_in (s : CsvModuleState) (line : String) :
    Except ParseError (List String) :=
  parse_line s.field_size_limit line

/-- The `csv` module state after importing `database_exports.py`, which
executes `csv.field_size_limit(FIELD_SIZE_LIMIT)` at module scope. -/
def module_init_state : CsvModuleState :=
  csv_field_size_limit FIELD_SIZE_LIMIT default_csv_state

namespace StudentModulePerCourseTask

/-- `StudentModulePerCourseTask.output`: the task's output target is the
success marker under `output_root`. -/
def output (output_root : String) : String :=
  url_path_join output_root MARKER_FILENAME

/-- The header line the reducer writes: the schema field names joined by
tabs. -/
def header : String := String.intercalate "\t" STUDENT_MODULE_FIELDS

/-- The sequence of `output_file.write` calls performed by
`StudentModulePerCourseTask.multi_output_reducer`: the header, a newline,
then each row followed by a newline. -/
def multi_output_reducer_writes (rows : List String) : List String :=
  [header, "\n"] ++ rows.flatMap (fun row => [row, "\n"])

/-- The content of the output file produced by
`StudentModulePerCourseTask.multi_output_reducer` for one key: the
concatenation of all its writes. -/
def multi_output_reducer (rows : List String) : String :=
  String.join (multi_output_reducer_writes rows)

/-- `StudentModulePerCourseTask.output_path_for_key`: builds
`{output_root}/{safe_course_id}-courseware_studentmodule-{suffix}analytics.sql`
where the suffix segment is `output_suffix + "-"` when `output_suffix` is
truthy (present and non-empty) and empty otherwise. -/
def output_path_for_key (output_root : String) (output_suffix : Option String)
    (course_id : String) : String :=
  let suffix : String :=
    match output_suffix with
    | some s => if s = "" then "" else s ++ "-"
    | none => ""
  let filename :=
    get_filename_safe_course_id course_id ++ "-courseware_studentmodule-"
      ++ suffix ++ "analytics.sql"
  url_path_join output_root filename

/-- `StudentModulePerCourseTask.mapper`: parse the line in the `mysqldump`
dialect, build the record (raising on schema-arity mismatch), and emit the
course id with the tab-separated re-serialization of the record.  The
source contains no try/except, so either failure propagates out of the
mapper as an exception, modelled as `Except.error`. -/
def mapper (limit : Nat) (line : String) : Except MapError (String × String) :=
  match parse_line limit line with
  | Except.error _ => Except.error MapError.fieldTooLarge
  | Except.ok values =>
    match mkStudentModuleRecord values with
    | none => Except.error MapError.schemaMismatch
    | some record => Except.ok (record.course_id, to_csv_line record)

end StudentModulePerCourseTask

/-- Modelled from the spec: the `MultiOutputMapReduceJobTask` run loop.
Partition writes happen in turn; an I/O failure while writing a partition
is fatal to the whole job (no further writes, no marker); the success
marker is written only after every partition write has been confirmed
successful.  `writeOk` says which partition paths write without error; the
result is the list of partition paths written and whether the marker (the
task's output target) was written. -/
def run_job (writeOk : String → Bool) : List String → List String × Bool
  | [] => ([], true)
  | p :: ps =>
    if writeOk p then
      let rest := run_job writeOk ps
      (p :: rest.1, rest.2)
    else
      ([], false)

/-- Modelled from the spec: writing one partition file into the output
directory, a finite map from path to content kept as an association list;
a later write to an already-present path replaces the earlier content. -/
def write_partition (fs : List (String × String)) (path content : String) :
    List (String × String) :=
  if fs.any (fun e => e.1 = path) then
    fs.map (fun e => if e.1 = path then (path, content) else e)
  else
    fs ++ [(path, content)]

/-- Modelled from the spec: the multi-output run invokes the reducer once
per distinct key; each invocation opens the output location computed for
its key and writes the header and the key's rows there.  No collision
check is performed anywhere. -/
def run_reducers (root : String) (sfx : Option String)
    (groups : List (String × List String)) : List (String × String) :=
  groups.foldl
    (fun fs g =>
      write_partition fs
        (StudentModulePerCourseTask.output_path_for_key root sfx g.1)
        (StudentModulePerCourseTask.multi_output_reducer g.2))
    []

end DatabaseExports

namespace DatabaseExports

lemma sanitizeChar_safe (c : Char) : isSafeChar (sanitizeChar c) = true := by
  unfold sanitizeChar
  by_cases h : isSafeChar c = true
  · rw [if_pos h]; exact h
  · rw [if_neg h]; decide

lemma sanitizeChar_idem (c : Char) : sanitizeChar (sanitizeChar c) = sanitizeChar c := by
  have hs := sanitizeChar_safe c
  rw [sanitizeChar, if_pos hs]

/-- C6: the key-sanitization function used to build output filenames is
idempotent: sanitizing an already-sanitized key changes nothing. -/
theorem C6_sanitize_idempotent (k : String) :
    get_filename_safe_course_id (get_filename_safe_course_id k)
      = get_filename_safe_course_id k := by
  unfold get_filename_safe_course_id
  simp [List.map_map]
  congr 1
  apply List.map_congr_left
  intro c _
  simp [Function.comp, sanitizeChar_idem]

/-- C5: the completion marker target is exactly `{output_root}/job_success`:
`MARKER_FILENAME` is the literal `job_success` and the task's output is
`output_root` joined with it. -/
theorem C5_marker_location :
    MARKER_FILENAME = "job_success"
      ∧ ∀ root : String,
          StudentModulePerCourseTask.output root = root ++ "/" ++ "job_success" := by
  constructor
  · rfl
  · intro root
    rfl

/-- C10: invoked with an empty row sequence, `multi_output_reducer` still
writes the header line followed by a newline and nothing else, giving a
well-formed header-only file. -/
theorem C10_empty_rows_header_only :
    StudentModulePerCourseTask.multi_output_reducer []
      = "id\tmodule_type\tmodule_id\tstudent_id\tstate\tgrade\tcreated\tmodified\tmax_grade\tdone\tcourse_id\n" := by
  rfl

/-- C4: `output_path_for_key` returns `output_root` joined with
`{sanitize(key)}-courseware_studentmodule-{suffix-or-empty}analytics.sql`,
where the suffix segment is `output_suffix` followed by a hyphen when
`output_suffix` is set (non-empty) and empty otherwise; it is a pure
function of `(key, output_root, output_suffix)`. -/
theorem C4_output_path_template (root key : String) :
    (StudentModulePerCourseTask.output_path_for_key root none key
        = root ++ "/" ++ (get_filename_safe_course_id key
            ++ "-courseware_studentmodule-" ++ "analytics.sql"))
      ∧ ∀ s : String, s ≠ "" →
          StudentModulePerCourseTask.output_path_for_key root (some s) key
            = root ++ "/" ++ (get_filename_safe_course_id key
                ++ "-courseware_studentmodule-" ++ (s ++ "-") ++ "analytics.sql") := by
  constructor
  · simp [StudentModulePerCourseTask.output_path_for_key, url_path_join]
  · intro s hs
    simp [StudentModulePerCourseTask.output_path_for_key, url_path_join, hs]

/-- Witness for C4 at concrete inputs. -/
theorem C4_output_path_template_witness :
    ("v1" : String) ≠ ""
      ∧ StudentModulePerCourseTask.output_path_for_key "out" (some "v1") "c:1"
          = "out" ++ "/" ++ (get_filename_safe_course_id "c:1"
              ++ "-courseware_studentmodule-" ++ ("v1" ++ "-") ++ "analytics.sql") :=
  ⟨by decide, (C4_output_path_template "out" "c:1").2 "v1" (by decide)⟩

lemma string_data_ext (s t : String) (h : s.data = t.data) : s = t := by
  cases s
  cases t
  exact congrArg String.mk h

lemma flat_writes (rows : List String) :
    (List.map String.data (rows.flatMap (fun row => [row, "\n"]))).flatten
      = (List.map String.data (rows.map (fun row => row ++ "\n"))).flatten := by
  induction rows with
  | nil => rfl
  | cons r rs ih => simp [ih, String.data_append]

lemma multi_output_reducer_eq (rows : List String) :
    StudentModulePerCourseTask.multi_output_reducer rows
      = StudentModulePerCourseTask.header ++ "\n"
        ++ String.join (rows.map (fun r => r ++ "\n")) := by
  apply string_data_ext
  simp [StudentModulePerCourseTask.multi_output_reducer,
        StudentModulePerCourseTask.multi_output_reducer_writes,
        String.data_append, flat_writes rows]

lemma header_no_newline :
    StudentModulePerCourseTask.header.data.count '\n' = 0 := by decide

lemma newline_single : ("\n" : String).data.count '\n' = 1 := by decide

lemma count_join_rows (rows : List String)
    (h : ∀ r ∈ rows, r.data.count '\n' = 0) :
    (String.join (rows.map (fun r => r ++ "\n"))).data.count '\n'
      = rows.length := by
  induction rows with
  | nil => rfl
  | cons r rs ih =>
    have hr := h r (List.mem_cons_self r rs)
    have hrs : ∀ x ∈ rs, x.data.count '\n' = 0 :=
      fun x hx => h x (List.mem_cons_of_mem r hx)
    have ih2 := ih hrs
    simp [String.data_append, List.count_append, hr, newline_single] at ih2 ⊢
    exact ih2

/-- C2: for every key and row sequence, `multi_output_reducer` writes
exactly one header line — the 11 schema field names joined by tabs —
followed by a newline, then each row followed by a newline, and nothing
else; so for newline-free rows the output holds `1 + N` lines for `N`
rows. -/
theorem C2_reducer_writes_header_then_rows (rows : List String)
    (h : ∀ r ∈ rows, r.data.count '\n' = 0) :
    STUDENT_MODULE_FIELDS.length = 11
      ∧ StudentModulePerCourseTask.multi_output_reducer rows
          = String.intercalate "\t" STUDENT_MODULE_FIELDS ++ "\n"
            ++ String.join (rows.map (fun r => r ++ "\n"))
      ∧ (StudentModulePerCourseTask.multi_output_reducer rows).data.count '\n'
          = 1 + rows.length := by
  refine ⟨rfl, multi_output_reducer_eq rows, ?_⟩
  rw [multi_output_reducer_eq rows]
  have hc := count_join_rows rows h
  simp [String.data_append, List.count_append, header_no_newline,
        newline_single] at hc ⊢
  omega

/-- Witness for C2 at a concrete two-row input. -/
theorem C2_reducer_writes_header_then_rows_witness :
    (∀ r ∈ (["aa", "bb"] : List String), r.data.count '\n' = 0)
      ∧ (STUDENT_MODULE_FIELDS.length = 11
          ∧ StudentModulePerCourseTask.multi_output_reducer ["aa", "bb"]
              = String.intercalate "\t" STUDENT_MODULE_FIELDS ++ "\n"
                ++ String.join ((["aa", "bb"] : List String).map (fun r => r ++ "\n"))
          ∧ (StudentModulePerCourseTask.multi_output_reducer ["aa", "bb"]).data.count '\n'
              = 1 + (["aa", "bb"] : List String).length) :=
  ⟨by decide, C2_reducer_writes_header_then_rows ["aa", "bb"] (by decide)⟩

/-- C1: the success marker is written exactly when every partition write
succeeds: the run's marker flag equals the conjunction of the write
outcomes over all partitions, and any failed write leaves the marker
absent. -/
theorem C1_marker_iff_all_writes (writeOk : String → Bool)
    (parts : List String) :
    (run_job writeOk parts).2 = parts.all writeOk := by
  induction parts with
  | nil => rfl
  | cons p ps ih =>
    by_cases hp : writeOk p = true
    · simp [run_job, hp, ih]
    · simp [run_job, hp]

/-- C3 counterexample: on the malformed line `a,b` (2 fields instead of
11) the mapper raises — the error propagates out rather than being
swallowed, because the mapper body has no error handling. -/
theorem C3_counterexample :
    StudentModulePerCourseTask.mapper FIELD_SIZE_LIMIT "a,b"
      = Except.error MapError.schemaMismatch := by rfl

/-- C3 amended: for every line that fails to parse into the fixed 11-field
schema, the mapper emits no (key, value) pair, but the failure propagates
out of the mapper as an exception (there is no in-mapper skip-and-log). -/
theorem C3_malformed_line_propagates (limit : Nat) (line : String)
    (h : ∀ values, parse_line limit line = Except.ok values →
        mkStudentModuleRecord values = none) :
    ∃ e, StudentModulePerCourseTask.mapper limit line = Except.error e := by
  unfold StudentModulePerCourseTask.mapper
  cases hp : parse_line limit line with
  | error e => exact ⟨MapError.fieldTooLarge, rfl⟩
  | ok values => exact ⟨MapError.schemaMismatch, by simp [h values hp]⟩

lemma parse_ab_malformed :
    ∀ values, parse_line FIELD_SIZE_LIMIT "a,b" = Except.ok values →
      mkStudentModuleRecord values = none := by
  intro values hv
  have hab : parse_line FIELD_SIZE_LIMIT "a,b" = Except.ok ["a", "b"] := rfl
  rw [hab] at hv
  cases hv
  rfl

/-- Witness for the amended C3 at the concrete malformed line `a,b`. -/
theorem C3_malformed_line_propagates_witness :
    (∀ values, parse_line FIELD_SIZE_LIMIT "a,b" = Except.ok values →
        mkStudentModuleRecord values = none)
      ∧ ∃ e, StudentModulePerCourseTask.mapper FIELD_SIZE_LIMIT "a,b"
          = Except.error e :=
  ⟨parse_ab_malformed,
   C3_malformed_line_propagates FIELD_SIZE_LIMIT "a,b" parse_ab_malformed⟩

lemma mk_record_fields (values : List String) (r : StudentModuleRecord)
    (h : mkStudentModuleRecord values = some r) : recordFields r = values := by
  unfold mkStudentModuleRecord at h
  split at h
  · injection h with h2
    subst h2
    rfl
  · exact Option.noConfusion h

/-- C7: for every line that parses into the 11-field schema, the mapper's
re-serialization (`parse_line` then `to_csv_line`) emits every parsed
field value byte-for-byte, changing only the delimiter convention: the
emitted row is exactly the parsed field values joined by tabs. -/
theorem C7_serialize_preserves_fields (limit : Nat) (line : String)
    (values : List String) (r : StudentModuleRecord)
    (hp : parse_line limit line = Except.ok values)
    (hr : mkStudentModuleRecord values = some r) :
    StudentModulePerCourseTask.mapper limit line
      = Except.ok (r.course_id, String.intercalate "\t" values) := by
  simp only [StudentModulePerCourseTask.mapper, hp, hr, to_csv_line,
             mk_record_fields values r hr]

/-- Witness for C7 at a concrete valid 11-field line. -/
theorem C7_serialize_preserves_fields_witness :
    parse_line FIELD_SIZE_LIMIT "1,mod,m1,s1,st,0,cr,mo,0,0,courseA"
        = Except.ok ["1", "mod", "m1", "s1", "st", "0", "cr", "mo", "0", "0", "courseA"]
      ∧ mkStudentModuleRecord
            ["1", "mod", "m1", "s1", "st", "0", "cr", "mo", "0", "0", "courseA"]
          = some ⟨"1", "mod", "m1", "s1", "st", "0", "cr", "mo", "0", "0", "courseA"⟩
      ∧ StudentModulePerCourseTask.mapper FIELD_SIZE_LIMIT
            "1,mod,m1,s1,st,0,cr,mo,0,0,courseA"
          = Except.ok
              ((⟨"1", "mod", "m1", "s1", "st", "0", "cr", "mo", "0", "0", "courseA"⟩ :
                  StudentModuleRecord).course_id,
               String.intercalate "\t"
                 ["1", "mod", "m1", "s1", "st", "0", "cr", "mo", "0", "0", "courseA"]) :=
  ⟨rfl, rfl, C7_serialize_preserves_fields _ _ _ _ rfl rfl⟩

/-- C8 counterexample: the field-size limit is a single process-wide
mutable value, not per-codec: reconfiguring it changes the outcome of an
unrelated parse in the same process. -/
theorem C8_counterexample :
    parse_line_in (csv_field_size_limit 3 module_init_state) "aaaaa"
        = Except.error ParseError.FieldTooLarge
      ∧ parse_line_in module_init_state "aaaaa" = Except.ok ["aaaaa"]
      ∧ (Except.error ParseError.FieldTooLarge : Except ParseError (List String))
          ≠ Except.ok ["aaaaa"] :=
  ⟨rfl, rfl, fun hcontra => Except.noConfusion hcontra⟩

/-- C8 amended: the field-size limit installed at module import is
4 MiB, and it is process-wide: after any `csv.field_size_limit n` call,
every parse in the process uses limit `n`, regardless of prior state or
of which component configured it. -/
theorem C8_process_wide_limit (n : Nat) (s : CsvModuleState) (line : String) :
    FIELD_SIZE_LIMIT = 4 * 1024 * 1024
      ∧ module_init_state.field_size_limit = FIELD_SIZE_LIMIT
      ∧ parse_line_in (csv_field_size_limit n s) line = parse_line n line :=
  ⟨rfl, rfl, rfl⟩

/-- C9 counterexample: the distinct keys `a:b` and `a-b` sanitize to the
same output location, yet the run completes without any error and the
later key's partition silently replaces the earlier one's (the file holds
only the `a-b` rows; the `a:b` rows are lost). -/
theorem C9_counterexample :
    ("a:b" : String) ≠ "a-b"
      ∧ StudentModulePerCourseTask.output_path_for_key "out" none "a:b"
          = StudentModulePerCourseTask.output_path_for_key "out" none "a-b"
      ∧ run_reducers "out" none [("a:b", ["R1"]), ("a-b", ["R2"])]
          = [(StudentModulePerCourseTask.output_path_for_key "out" none "a-b",
              StudentModulePerCourseTask.multi_output_reducer ["R2"])] := by
  refine ⟨by decide, by decide, ?_⟩
  decide

/-- C9 amended: sanitization collisions are not detected: whenever two
keys map to the same output location, the later reducer invocation
silently overwrites the earlier key's partition and the run completes
normally, with no fatal error surfaced. -/
theorem C9_collision_overwrites (root : String) (sfx : Option String)
    (k1 k2 : String) (rows1 rows2 : List String)
    (h : StudentModulePerCourseTask.output_path_for_key root sfx k1
        = StudentModulePerCourseTask.output_path_for_key root sfx k2) :
    run_reducers root sfx [(k1, rows1), (k2, rows2)]
      = [(StudentModulePerCourseTask.output_path_for_key root sfx k2,
          StudentModulePerCourseTask.multi_output_reducer rows2)] := by
  simp [run_reducers, write_partition, h]

/-- Witness for the amended C9 at a concrete colliding pair of keys. -/
theorem C9_collision_overwrites_witness :
    StudentModulePerCourseTask.output_path_for_key "r" (some "s") "x:y"
        = StudentModulePerCourseTask.output_path_for_key "r" (some "s") "x-y"
      ∧ run_reducers "r" (some "s") [("x:y", ["P"]), ("x-y", ["Q"])]
          = [(StudentModulePerCourseTask.output_path_for_key "r" (some "s") "x-y",
              StudentModulePerCourseTask.multi_output_reducer ["Q"])] :=
  ⟨by decide,
   C9_collision_overwrites "r" (some "s") "x:y" "x-y" ["P"] ["Q"] (by decide)⟩

end DatabaseExports
